import Mathlib

/-!
Verification of the food-brand e-commerce backend (src/main.py, src/schemas.py).

The data model (Product, OrderItem, Order), the catalog query service
(list_products), the checkout service (checkout) and the seed service
(seed_products) are shallowly embedded below.  Python floats are modelled as
exact rationals, pydantic validation as Option-valued smart constructors, and
the document store as an explicit state threaded through each operation.  The
generic store client (create_document / get_documents, from database.py, which
is not part of the sources) is modelled from the contract stated in the spec.
-/

set_option autoImplicit false
set_option maxRecDepth 4096

namespace FoodBrand

/-- Splits a character list at every occurrence of the separator, keeping
empty chunks, mirroring the usual string split. -/
def splitOnChar (c : Char) : List Char → List (List Char)
  | [] => [[]]
  | x :: xs =>
    let r := splitOnChar c xs
    if x == c then [] :: r
    else
      match r with
      | [] => [[x]]
      | y :: ys => (x :: y) :: ys

/-- Modelled from the spec: the Order email field `must be a syntactically
valid email address`.  The source delegates the check to the pydantic
`EmailStr` validator, whose implementation is not part of this repository;
we model the syntactic check as: exactly one at-sign, a nonempty local part,
a domain of at least two nonempty dot-separated labels, and no spaces. -/
def isValidEmail (e : String) : Bool :=
  match splitOnChar '@' e.toList with
  | [lp, dom] =>
    let ls := splitOnChar '.' dom
    !lp.isEmpty && decide (2 ≤ ls.length) && ls.all (fun l => !l.isEmpty)
      && e.toList.all (fun ch => ch != ' ')
  | _ => false

/-- Field values of loosely-typed document-store records. -/
inductive RawVal where
  | str (s : String)
  | num (q : ℚ)
  | bool (b : Bool)
  | oid (n : Nat)
  | null
  | arr (elems : List RawVal)
  | doc (fields : List (String × RawVal))

/-- A raw document-store record: an ordered list of field name / value pairs
with pairwise distinct names (a JSON object). -/
abbrev RawDoc := List (String × RawVal)

mutual

/-- Structural equality of raw field values, used by the equality filter of
the document store. -/
def RawVal.beq : RawVal → RawVal → Bool
  | .str a, .str b => a == b
  | .num a, .num b => a == b
  | .bool a, .bool b => a == b
  | .oid a, .oid b => a == b
  | .null, .null => true
  | .arr a, .arr b => RawVal.beqList a b
  | .doc a, .doc b => RawVal.beqFields a b
  | _, _ => false

/-- Pointwise `RawVal.beq` on lists of values. -/
def RawVal.beqList : List RawVal → List RawVal → Bool
  | [], [] => true
  | a :: as2, b :: bs => RawVal.beq a b && RawVal.beqList as2 bs
  | _, _ => false

/-- Pointwise `RawVal.beq` on field lists, comparing names as well. -/
def RawVal.beqFields : List (String × RawVal) → List (String × RawVal) → Bool
  | [], [] => true
  | (k, v) :: as2, (k2, v2) :: bs => k == k2 && RawVal.beq v v2 && RawVal.beqFields as2 bs
  | _, _ => false

end

/-- Looks up the value of the first field with the given name. -/
def getVal (d : RawDoc) (k : String) : Option RawVal :=
  match d with
  | [] => none
  | (k2, v) :: rest => if k2 == k then some v else getVal rest k

/-- Product record (src/schemas.py, class Product): title, optional
description, price constrained to be nonnegative, category, in_stock
defaulting to true, optional image, featured defaulting to false. -/
structure Product where
  title : String
  description : Option String := none
  price : ℚ
  category : String
  in_stock : Bool := true
  image : Option String := none
  featured : Bool := false
deriving DecidableEq

/-- Serializes an optional string the way pydantic model dumps do: a missing
value becomes null. -/
def optStrVal : Option String → RawVal
  | none => RawVal.null
  | some s => RawVal.str s

/-- Serialization of a Product into a raw store record, field for field in
declaration order. -/
def Product.toRaw (p : Product) : RawDoc :=
  [(("title"), RawVal.str p.title),
   (("description"), optStrVal p.description),
   (("price"), RawVal.num p.price),
   (("category"), RawVal.str p.category),
   (("in_stock"), RawVal.bool p.in_stock),
   (("image"), optStrVal p.image),
   (("featured"), RawVal.bool p.featured)]

/-- Reads a required string field: present and a string, anything else fails. -/
def reqStr (d : RawDoc) (k : String) : Option String :=
  match getVal d k with
  | some (RawVal.str s) => some s
  | _ => none

/-- Reads an optional string field: absent or null is none, a string is kept,
any other value fails. -/
def optStrField (d : RawDoc) (k : String) : Option (Option String) :=
  match getVal d k with
  | none => some none
  | some RawVal.null => some none
  | some (RawVal.str s) => some (some s)
  | _ => none

/-- Reads a boolean field with a default: absent yields the default. -/
def boolField (d : RawDoc) (k : String) (dflt : Bool) : Option Bool :=
  match getVal d k with
  | none => some dflt
  | some (RawVal.bool b) => some b
  | _ => none

/-- Reads a required numeric field constrained to be nonnegative, as the
pydantic Field ge constraint on Product price does. -/
def numFieldGe0 (d : RawDoc) (k : String) : Option ℚ :=
  match getVal d k with
  | some (RawVal.num q) => if 0 ≤ q then some q else none
  | _ => none

/-- Pydantic validation of a raw record into a Product (Product constructor
applied to the raw fields): every field is read and checked in declaration
order, any failure rejects the record. -/
def productOfRaw (d : RawDoc) : Option Product :=
  (reqStr d ("title")).bind fun t =>
  (optStrField d ("description")).bind fun desc =>
  (numFieldGe0 d ("price")).bind fun pr =>
  (reqStr d ("category")).bind fun cat =>
  (boolField d ("in_stock") true).bind fun ins =>
  (optStrField d ("image")).bind fun img =>
  (boolField d ("featured") false).bind fun fea =>
  some ⟨t, desc, pr, cat, ins, img, fea⟩

/-- OrderItem record (src/schemas.py, class OrderItem). -/
structure OrderItem where
  product_id : String
  title : String
  price : ℚ
  quantity : ℤ
  image : Option String := none
deriving DecidableEq

/-- Pydantic-validated construction of an OrderItem: the Field constraints
require price ge 0 and quantity ge 1. -/
def mkOrderItem (product_id title : String) (price : ℚ) (quantity : ℤ)
    (image : Option String) : Option OrderItem :=
  if 0 ≤ price ∧ 1 ≤ quantity then some ⟨product_id, title, price, quantity, image⟩
  else none

/-- Serialization of an OrderItem into raw fields. -/
def OrderItem.toRaw (it : OrderItem) : RawDoc :=
  [(("product_id"), RawVal.str it.product_id),
   (("title"), RawVal.str it.title),
   (("price"), RawVal.num it.price),
   (("quantity"), RawVal.num (it.quantity : ℚ)),
   (("image"), optStrVal it.image)]

/-- Order record (src/schemas.py, class Order). -/
structure Order where
  customer_name : String
  email : String
  address : String
  city : String
  country : String
  items : List OrderItem
  subtotal : ℚ
  shipping : ℚ := 0
  total : ℚ
  status : String := "pending"
deriving DecidableEq

/-- Pydantic-validated construction of an Order: the email must be a valid
email address (EmailStr) and subtotal, shipping and total must each be
nonnegative (Field ge constraints). -/
def mkOrder (customer_name email address city country : String)
    (items : List OrderItem) (subtotal shipping total : ℚ) (status : String) :
    Option Order :=
  if isValidEmail email ∧ 0 ≤ subtotal ∧ 0 ≤ shipping ∧ 0 ≤ total then
    some ⟨customer_name, email, address, city, country, items, subtotal, shipping, total, status⟩
  else none

/-- Serialization of an Order into raw fields. -/
def Order.toRaw (o : Order) : RawDoc :=
  [(("customer_name"), RawVal.str o.customer_name),
   (("email"), RawVal.str o.email),
   (("address"), RawVal.str o.address),
   (("city"), RawVal.str o.city),
   (("country"), RawVal.str o.country),
   (("items"), RawVal.arr (o.items.map fun it => RawVal.doc (OrderItem.toRaw it))),
   (("subtotal"), RawVal.num o.subtotal),
   (("shipping"), RawVal.num o.shipping),
   (("total"), RawVal.num o.total),
   (("status"), RawVal.str o.status)]

/-- State of the document store: the records written so far, tagged with the
store-assigned identifier and the collection they live in, plus the next
fresh identifier. -/
structure StoreState where
  docs : List (Nat × String × RawDoc)
  nextId : Nat

/-- Modelled from the spec: `createDocument(collectionName, record) ->
generated_id`, writing one record and returning its store-assigned
identifier (database.py is not part of the sources).  The stored record
carries its identifier in the reserved field, as document stores do. -/
def create_document (collection : String) (d : RawDoc) (st : StoreState) :
    Nat × StoreState :=
  (st.nextId,
   ⟨st.docs ++ [(st.nextId, collection, (("_id"), RawVal.oid st.nextId) :: d)],
    st.nextId + 1⟩)

/-- A record matches an equality filter when every filter clause names a field
present in the record with an equal value. -/
def matchesQuery (d : RawDoc) (query : List (String × RawVal)) : Bool :=
  query.all fun kv =>
    match getVal d kv.1 with
    | some v => RawVal.beq v kv.2
    | none => false

/-- Modelled from the spec: `getDocuments(collectionName, filter, limit) ->
sequence of raw records`, equality-filtered and limit-capped, in the natural
retrieval order of the store (database.py is not part of the sources). -/
def get_documents (collection : String) (query : List (String × RawVal))
    (lim : Nat) (st : StoreState) : List RawDoc :=
  (((st.docs.filter fun e => e.2.1 == collection && matchesQuery e.2.2 query).map
    fun e => e.2.2)).take lim

/-- The equality filter built by list_products (src/main.py, lines 59-63):
the category clause is added under Python truthiness (`if category:`, so an
empty string adds no clause), the featured clause is added under explicit
presence (`if featured is not None:`). -/
def buildProductQuery (category : Option String) (featured : Option Bool) :
    List (String × RawVal) :=
  (match category with
    | some c => if c == ("") then [] else [(("category"), RawVal.str c)]
    | none => []) ++
  (match featured with
    | some b => [(("featured"), RawVal.bool b)]
    | none => [])

/-- Removal of the store-assigned identifier from a record
(`d.pop("_id", None)` in src/main.py, line 68). -/
def popId (d : RawDoc) : RawDoc :=
  d.filter fun kv => kv.1 != ("_id")

/-- Error message standing in for the text of the exception raised when a raw
record fails Product validation. -/
def prodErrMsg : String := "product validation error"

/-- The record loop of list_products (src/main.py, lines 66-69): each record
has its identifier removed and is validated into a Product; the first failure
raises, which the endpoint turns into a 500 error. -/
def validateProducts : List RawDoc → Except (Nat × String) (List Product)
  | [] => Except.ok []
  | d :: rest =>
    match productOfRaw (popId d) with
    | none => Except.error (500, prodErrMsg)
    | some p =>
      match validateProducts rest with
      | Except.ok ps => Except.ok (p :: ps)
      | Except.error e => Except.error e

/-- The catalog query endpoint list_products (src/main.py, lines 56-72):
builds the filter, reads the product collection through the store client and
validates every returned record, a 500 error aborting the whole request on
any failure. -/
def list_products (category : Option String) (featured : Option Bool)
    (lim : Nat) (st : StoreState) : Except (Nat × String) (List Product) :=
  validateProducts (get_documents ("product") (buildProductQuery category featured) lim st)

/-- CartItem payload model (src/main.py, lines 74-79).  Note that unlike
OrderItem it carries no constraint on price or quantity: any values of the
right types parse. -/
structure CartItem where
  product_id : String
  title : String
  price : ℚ
  quantity : ℤ
  image : Option String := none
deriving DecidableEq

/-- CheckoutRequest payload model (src/main.py, lines 81-87).  The email
field is a plain string here; the EmailStr check only happens when the Order
is constructed. -/
structure CheckoutRequest where
  customer_name : String
  email : String
  address : String
  city : String
  country : String
  items : List CartItem
deriving DecidableEq

/-- Error message standing in for the text of the pydantic error raised when
an OrderItem constraint fails inside the checkout loop. -/
def itemErrMsg : String := "order item validation error"

/-- Error message standing in for the text of the pydantic error raised when
the Order record itself fails validation. -/
def orderErrMsg : String := "order validation error"

/-- Outcome of the checkout item loop: either the final OrderItem list and
subtotal, or a failure together with the partial OrderItem list and partial
subtotal accumulated up to the point the exception was raised (the values the
local variables of src/main.py lines 92-96 hold at that moment). -/
inductive LoopResult where
  | done (items : List OrderItem) (subtotal : ℚ)
  | failed (msg : String) (itemsSoFar : List OrderItem) (subtotalSoFar : ℚ)
deriving DecidableEq

/-- The checkout item loop (src/main.py, lines 92-96): for each cart item in
input order, construct an OrderItem snapshot (which validates price ge 0 and
quantity ge 1) and then accumulate price times quantity into the subtotal. -/
def processItems : List CartItem → List OrderItem → ℚ → LoopResult
  | [], acc, sub => LoopResult.done acc sub
  | it :: rest, acc, sub =>
    match mkOrderItem it.product_id it.title it.price it.quantity it.image with
    | none => LoopResult.failed itemErrMsg acc sub
    | some oi => processItems rest (acc ++ [oi]) (sub + it.price * (it.quantity : ℚ))

/-- Response body of a successful checkout. -/
structure CheckoutResponse where
  success : Bool
  order_id : Nat
deriving DecidableEq

/-- A store-write behaviour: what create_document does for one call, allowed
to fail.  On failure no new store state exists; the single-document write is
atomic, as the spec assumes of the store. -/
abbrev CreateFn := String → RawDoc → StoreState → Except String (Nat × StoreState)

/-- The checkout endpoint (src/main.py, lines 89-112), parameterized by the
store-write behaviour: run the item loop, construct the Order with shipping 0,
total equal to subtotal and status pending, persist it with a single store
write and return the store-assigned identifier; any exception surfaces as a
500 error carrying the failure message. -/
def checkoutWith (cf : CreateFn) (payload : CheckoutRequest) (st : StoreState) :
    Except (Nat × String) (CheckoutResponse × StoreState) :=
  match processItems payload.items [] 0 with
  | LoopResult.failed msg _ _ => Except.error (500, msg)
  | LoopResult.done items subtotal =>
    match mkOrder payload.customer_name payload.email payload.address
        payload.city payload.country items subtotal 0 subtotal ("pending") with
    | none => Except.error (500, orderErrMsg)
    | some o =>
      match cf ("order") (Order.toRaw o) st with
      | Except.error msg => Except.error (500, msg)
      | Except.ok (oid, st2) => Except.ok (⟨true, oid⟩, st2)

/-- The checkout endpoint with the store client of the running system, whose
single-document write always succeeds and returns the generated identifier. -/
def checkout (payload : CheckoutRequest) (st : StoreState) :
    Except (Nat × String) (CheckoutResponse × StoreState) :=
  checkoutWith (fun c d s => Except.ok (create_document c d s)) payload st

/-- First demo product seeded by seed_products (src/main.py, line 122). -/
def chipsProduct : Product :=
  { title := "Spicy Chili Chips",
    description := some "Crunchy chips with a fiery chili kick.",
    price := 399/100, category := "snacks", in_stock := true,
    image := some "https://images.unsplash.com/photo-1604908177073-b5c2b6ed83e6?w=800",
    featured := true }

/-- Second demo product seeded by seed_products (src/main.py, line 123). -/
def granolaProduct : Product :=
  { title := "Organic Granola",
    description := some "Honey-sweetened granola with nuts and seeds.",
    price := 65/10, category := "breakfast", in_stock := true,
    image := some "https://images.unsplash.com/photo-1517677208171-0bc6725a3e60?w=800",
    featured := true }

/-- Third demo product seeded by seed_products (src/main.py, line 124). -/
def soupProduct : Product :=
  { title := "Tomato Basil Soup",
    description := some "Slow-simmered tomato soup with fresh basil.",
    price := 475/100, category := "meals", in_stock := true,
    image := some "https://images.unsplash.com/photo-1547592166-23ac45744acd?w=800",
    featured := false }

/-- Fourth demo product seeded by seed_products (src/main.py, line 125). -/
def smoothieProduct : Product :=
  { title := "Mango Smoothie",
    description := some "Creamy mango smoothie with yogurt.",
    price := 525/100, category := "drinks", in_stock := true,
    image := some "https://images.unsplash.com/photo-1467453678174-768ec283a940?w=800",
    featured := false }

/-- The fixed ordered list of demo products (src/main.py, lines 121-126). -/
def sampleProducts : List Product :=
  [chipsProduct, granolaProduct, soupProduct, smoothieProduct]

/-- One store write per product, in list order (src/main.py, lines 127-128). -/
def seedWrites : List Product → StoreState → StoreState
  | [], st => st
  | p :: ps, st => seedWrites ps (create_document ("product") p.toRaw st).2

/-- The seed endpoint seed_products (src/main.py, lines 115-131): query the
store for at least one product; if any exists return the already-exist
message without writing, otherwise write the four demo products one by one. -/
def seed_products (st : StoreState) : String × StoreState :=
  let existing := get_documents ("product") [] 1 st
  if existing.isEmpty then ("Seeded products", seedWrites sampleProducts st)
  else ("Products already exist", st)

/-- Spec-side subtotal: the sum, over all cart items in input order, of price
times quantity. -/
def cartSubtotal (items : List CartItem) : ℚ :=
  (items.map fun it => it.price * (it.quantity : ℚ)).sum

/-- The OrderItem snapshot of a cart item, field for field. -/
def cartToOrderItem (it : CartItem) : OrderItem :=
  ⟨it.product_id, it.title, it.price, it.quantity, it.image⟩

/-- Structural validity of a cart item per the OrderItem constraints:
nonnegative price and quantity at least one. -/
def validCartItem (it : CartItem) : Bool :=
  decide (0 ≤ it.price) && decide (1 ≤ it.quantity)

/-- The Order a successful checkout of the payload constructs: snapshot
items, subtotal as specified, shipping 0, total equal to subtotal and status
pending. -/
def orderOf (p : CheckoutRequest) : Order :=
  { customer_name := p.customer_name, email := p.email, address := p.address,
    city := p.city, country := p.country,
    items := p.items.map cartToOrderItem, subtotal := cartSubtotal p.items,
    shipping := 0, total := cartSubtotal p.items, status := "pending" }

/-- A structurally valid cart item with integer-valued price, used as a
concrete input. -/
def wOkItem : CartItem :=
  { product_id := "p1", title := "Good Snack", price := 2, quantity := 1, image := none }

/-- A cart item violating the quantity constraint, used as a concrete input. -/
def cexBadItem : CartItem :=
  { product_id := "p2", title := "Bad Snack", price := 3, quantity := 0, image := none }

/-- A fully valid checkout payload with one item, used as a concrete input. -/
def wPayload : CheckoutRequest :=
  { customer_name := "Alice Doe", email := "alice@example.com",
    address := "1 Main St", city := "Townsville", country := "Freedonia",
    items := [wOkItem] }

/-- A checkout payload whose second item is invalid, used as a concrete
input. -/
def cexPayload : CheckoutRequest :=
  { customer_name := "Alice Doe", email := "alice@example.com",
    address := "1 Main St", city := "Townsville", country := "Freedonia",
    items := [wOkItem, cexBadItem] }

/-- A checkout payload with an empty cart, used as a concrete input. -/
def wEmptyPayload : CheckoutRequest :=
  { customer_name := "Alice Doe", email := "alice@example.com",
    address := "1 Main St", city := "Townsville", country := "Freedonia",
    items := [] }

/-- A checkout payload with a syntactically invalid email, used as a concrete
input. -/
def wBadEmailPayload : CheckoutRequest :=
  { customer_name := "Alice Doe", email := "not-an-email",
    address := "1 Main St", city := "Townsville", country := "Freedonia",
    items := [wOkItem] }

/-- The empty store. -/
def emptyStore : StoreState := { docs := [], nextId := 0 }

/-- A catalog product with integer-valued price, used as a concrete input. -/
def snackProduct : Product :=
  { title := "Corn Chips", description := some "Salty corn chips.",
    price := 4, category := "snacks", in_stock := true, image := none,
    featured := false }

/-- The store record holding the catalog product, identifier included. -/
def snackDoc : RawDoc := (("_id"), RawVal.oid 0) :: Product.toRaw snackProduct

/-- A raw product record with no price field; it fails Product validation. -/
def badDoc : RawDoc := [(("_id"), RawVal.oid 7), (("title"), RawVal.str ("No Price"))]

/-- A store holding one valid product record. -/
def storeWithSnack : StoreState := { docs := [(0, ("product"), snackDoc)], nextId := 1 }

/-- A store holding three product records, to exercise the limit cap. -/
def storeWithThree : StoreState :=
  { docs := [(0, ("product"), snackDoc), (1, ("product"), snackDoc), (2, ("product"), snackDoc)],
    nextId := 3 }

/-- The four store entries created by a seeding run that starts from fresh
identifier n: the four demo products in order, one write each. -/
def seededEntries (n : Nat) : List (Nat × String × RawDoc) :=
  [(n, ("product"), (("_id"), RawVal.oid n) :: Product.toRaw chipsProduct),
   (n+1, ("product"), (("_id"), RawVal.oid (n+1)) :: Product.toRaw granolaProduct),
   (n+2, ("product"), (("_id"), RawVal.oid (n+2)) :: Product.toRaw soupProduct),
   (n+3, ("product"), (("_id"), RawVal.oid (n+3)) :: Product.toRaw smoothieProduct)]

/-- The always-succeeding store-write behaviour of the running system. -/
def okCreate : CreateFn := fun c d s => Except.ok (create_document c d s)

/-- A store-write behaviour whose single-document write always fails. -/
def failCreate : CreateFn := fun _ _ _ => Except.error ("store write failed")

lemma validCartItem_iff (it : CartItem) :
    validCartItem it = true ↔ (0 ≤ it.price ∧ 1 ≤ it.quantity) := by
  simp [validCartItem]

lemma mkOrderItem_of_valid (it : CartItem) (h : validCartItem it = true) :
    mkOrderItem it.product_id it.title it.price it.quantity it.image
      = some (cartToOrderItem it) := by
  have h2 := (validCartItem_iff it).mp h
  simp [mkOrderItem, cartToOrderItem, h2.1, h2.2]

lemma mkOrderItem_of_invalid (it : CartItem) (h : validCartItem it = false) :
    mkOrderItem it.product_id it.title it.price it.quantity it.image = none := by
  have h2 : ¬ (0 ≤ it.price ∧ 1 ≤ it.quantity) := by
    intro hc
    rw [(validCartItem_iff it).mpr hc] at h
    cases h
  simp [mkOrderItem, h2]

lemma cartSubtotal_cons (it : CartItem) (rest : List CartItem) :
    cartSubtotal (it :: rest) = it.price * (it.quantity : ℚ) + cartSubtotal rest := by
  simp [cartSubtotal]

lemma processItems_done : ∀ (its : List CartItem) (acc : List OrderItem) (sub : ℚ),
    (∀ it ∈ its, validCartItem it = true) →
    processItems its acc sub
      = LoopResult.done (acc ++ its.map cartToOrderItem) (sub + cartSubtotal its)
  | [], acc, sub, _ => by simp [processItems, cartSubtotal]
  | it :: rest, acc, sub, h => by
    have hit := h it (by simp)
    have hrest : ∀ x ∈ rest, validCartItem x = true := fun x hx => h x (by simp [hx])
    simp only [processItems, mkOrderItem_of_valid it hit]
    rw [processItems_done rest (acc ++ [cartToOrderItem it])
      (sub + it.price * (it.quantity : ℚ)) hrest]
    simp [cartSubtotal_cons, List.append_assoc, add_assoc]

lemma processItems_prefix_fail : ∀ (pre : List CartItem) (bad : CartItem)
    (rest : List CartItem) (acc : List OrderItem) (sub : ℚ),
    (∀ it ∈ pre, validCartItem it = true) → validCartItem bad = false →
    processItems (pre ++ bad :: rest) acc sub
      = LoopResult.failed itemErrMsg (acc ++ pre.map cartToOrderItem) (sub + cartSubtotal pre)
  | [], bad, rest, acc, sub, _, hbad => by
    simp [processItems, mkOrderItem_of_invalid bad hbad, cartSubtotal]
  | it :: p2, bad, rest, acc, sub, hpre, hbad => by
    have hit := hpre it (by simp)
    have hp2 : ∀ x ∈ p2, validCartItem x = true := fun x hx => hpre x (by simp [hx])
    simp only [List.cons_append, processItems, mkOrderItem_of_valid it hit, List.append_eq]
    rw [processItems_prefix_fail p2 bad rest (acc ++ [cartToOrderItem it])
      (sub + it.price * (it.quantity : ℚ)) hp2 hbad]
    simp [cartSubtotal_cons, List.append_assoc, add_assoc]

lemma processItems_fails_of_invalid : ∀ (its : List CartItem) (acc : List OrderItem) (sub : ℚ),
    (∃ it ∈ its, validCartItem it = false) →
    ∃ a s, processItems its acc sub = LoopResult.failed itemErrMsg a s
  | [], _, _, h => absurd h (by simp)
  | it :: rest, acc, sub, h => by
    cases hv : validCartItem it with
    | false =>
      exact ⟨acc, sub, by simp [processItems, mkOrderItem_of_invalid it hv]⟩
    | true =>
      obtain ⟨x, hx, hxf⟩ := h
      rcases List.mem_cons.mp hx with hxe | hxr
      · rw [hxe] at hxf
        rw [hxf] at hv
        cases hv
      · obtain ⟨a, s, he⟩ := processItems_fails_of_invalid rest
          (acc ++ [cartToOrderItem it]) (sub + it.price * (it.quantity : ℚ)) ⟨x, hxr, hxf⟩
        exact ⟨a, s, by simp [processItems, mkOrderItem_of_valid it hv, he]⟩

lemma cartSubtotal_nonneg : ∀ (its : List CartItem),
    (∀ it ∈ its, validCartItem it = true) → 0 ≤ cartSubtotal its
  | [], _ => by simp [cartSubtotal]
  | it :: rest, h => by
    have hit := (validCartItem_iff it).mp (h it (by simp))
    have hq : (1:ℚ) ≤ (it.quantity : ℚ) := by exact_mod_cast hit.2
    have h1 : 0 ≤ it.price * (it.quantity : ℚ) :=
      mul_nonneg hit.1 (le_trans zero_le_one hq)
    have h2 := cartSubtotal_nonneg rest (fun x hx => h x (by simp [hx]))
    rw [cartSubtotal_cons]
    exact add_nonneg h1 h2

lemma mkOrder_pos (cn em ad ci co : String) (its : List OrderItem) (sub : ℚ)
    (stt : String) (he : isValidEmail em = true) (hs : 0 ≤ sub) :
    mkOrder cn em ad ci co its sub 0 sub stt
      = some ⟨cn, em, ad, ci, co, its, sub, 0, sub, stt⟩ := by
  simp [mkOrder, he, hs]

lemma checkout_ok (p : CheckoutRequest) (st : StoreState)
    (hv : ∀ it ∈ p.items, validCartItem it = true) (he : isValidEmail p.email = true) :
    checkout p st = Except.ok (⟨true, st.nextId⟩,
      ⟨st.docs ++ [(st.nextId, ("order"),
        (("_id"), RawVal.oid st.nextId) :: Order.toRaw (orderOf p))],
       st.nextId + 1⟩) := by
  have hloop := processItems_done p.items [] 0 hv
  simp only [List.nil_append, zero_add] at hloop
  have hsub := cartSubtotal_nonneg p.items hv
  unfold checkout checkoutWith
  simp only [hloop]
  rw [mkOrder_pos p.customer_name p.email p.address p.city p.country
    (p.items.map cartToOrderItem) (cartSubtotal p.items) ("pending") he hsub]
  simp [create_document, orderOf]

lemma length_get_documents (c : String) (q : List (String × RawVal)) (lim : Nat)
    (st : StoreState) : (get_documents c q lim st).length ≤ lim := by
  simp only [get_documents]
  exact List.length_take_le _ _

lemma matches_of_mem_get_documents {d : RawDoc} {c : String}
    {q : List (String × RawVal)} {lim : Nat} {st : StoreState}
    (h : d ∈ get_documents c q lim st) : matchesQuery d q = true := by
  simp only [get_documents] at h
  have h2 := List.take_subset _ _ h
  obtain ⟨e, he, rfl⟩ := List.mem_map.mp h2
  have h3 := (List.mem_filter.mp he).2
  simp only [Bool.and_eq_true] at h3
  exact h3.2

lemma getVal_popId (d : RawDoc) (k : String) (hk : k ≠ ("_id")) :
    getVal (popId d) k = getVal d k := by
  induction d with
  | nil => rfl
  | cons kv rest ih =>
    obtain ⟨k2, v⟩ := kv
    by_cases h2 : k2 = ("_id")
    · subst h2
      have hne : ((("_id") : String) == k) = false :=
        beq_eq_false_iff_ne.mpr (Ne.symm hk)
      simp [popId, getVal, hne, List.filter]
      simpa [popId] using ih
    · have htest : (k2 != ("_id")) = true := by simp [h2]
      by_cases h3 : k2 = k
      · subst h3
        simp [popId, getVal, htest, List.filter]
      · have h4 : (k2 == k) = false := beq_eq_false_iff_ne.mpr h3
        simp [popId, getVal, htest, h4, List.filter]
        simpa [popId] using ih

lemma beq_str_eq {v : RawVal} {c : String} (h : RawVal.beq v (RawVal.str c) = true) :
    v = RawVal.str c := by
  cases v <;> simp_all [RawVal.beq]

lemma beq_bool_eq {v : RawVal} {b : Bool} (h : RawVal.beq v (RawVal.bool b) = true) :
    v = RawVal.bool b := by
  cases v <;> simp_all [RawVal.beq]

lemma matchesQuery_mem {d : RawDoc} {q : List (String × RawVal)}
    (h : matchesQuery d q = true) {kv : String × RawVal} (hm : kv ∈ q) :
    ∃ v, getVal d kv.1 = some v ∧ RawVal.beq v kv.2 = true := by
  have h2 := (List.all_eq_true.mp h) kv hm
  revert h2
  cases hg : getVal d kv.1 with
  | none => intro h2; simp at h2
  | some v => intro h2; exact ⟨v, rfl, h2⟩

lemma category_mem_query {c : String} (h : c ≠ ("")) (f : Option Bool) :
    ((("category") : String), RawVal.str c) ∈ buildProductQuery (some c) f := by
  have h2 : (c == ("")) = false := beq_eq_false_iff_ne.mpr h
  simp [buildProductQuery, h2]

lemma featured_mem_query (cat : Option String) (b : Bool) :
    ((("featured") : String), RawVal.bool b) ∈ buildProductQuery cat (some b) := by
  cases cat with
  | none => simp [buildProductQuery]
  | some c =>
    by_cases hc : (c == ("")) = true <;> simp [buildProductQuery, hc]

lemma validateProducts_ok_all : ∀ (docs : List RawDoc),
    (∀ d ∈ docs, (productOfRaw (popId d)).isSome = true) →
    validateProducts docs = Except.ok (docs.filterMap fun d => productOfRaw (popId d))
  | [], _ => rfl
  | d :: rest, h => by
    obtain ⟨p, hp⟩ := Option.isSome_iff_exists.mp (h d (by simp))
    rw [show validateProducts (d :: rest)
        = (match productOfRaw (popId d) with
          | none => Except.error (500, prodErrMsg)
          | some p =>
            match validateProducts rest with
            | Except.ok ps => Except.ok (p :: ps)
            | Except.error e => Except.error e) from rfl]
    rw [hp, validateProducts_ok_all rest (fun x hx => h x (by simp [hx]))]
    simp [List.filterMap_cons, hp]

lemma validateProducts_error_of_mem : ∀ (docs : List RawDoc) (d0 : RawDoc),
    d0 ∈ docs → productOfRaw (popId d0) = none →
    validateProducts docs = Except.error (500, prodErrMsg)
  | [], _, h, _ => absurd h (by simp)
  | d :: rest, d0, h, hn => by
    rcases List.mem_cons.mp h with he | hr
    · subst he
      simp [validateProducts, hn]
    · cases hp : productOfRaw (popId d) with
      | none => simp [validateProducts, hp]
      | some p =>
        simp [validateProducts, hp, validateProducts_error_of_mem rest d0 hr hn]

lemma validateProducts_ok_length : ∀ (docs : List RawDoc) (ps : List Product),
    validateProducts docs = Except.ok ps → ps.length = docs.length
  | [], ps, h => by
    simp [validateProducts] at h
    simp [← h]
  | d :: rest, ps, h => by
    cases hp : productOfRaw (popId d) with
    | none => simp [validateProducts, hp] at h
    | some p =>
      cases hr : validateProducts rest with
      | error e => simp [validateProducts, hp, hr] at h
      | ok ps2 =>
        simp [validateProducts, hp, hr] at h
        rw [← h]
        simp [validateProducts_ok_length rest ps2 hr]

lemma validateProducts_ok_mem : ∀ (docs : List RawDoc) (ps : List Product) (p : Product),
    validateProducts docs = Except.ok ps → p ∈ ps →
    ∃ d ∈ docs, productOfRaw (popId d) = some p
  | [], ps, p, h, hm => by
    simp [validateProducts] at h
    subst h
    simp at hm
  | d :: rest, ps, p, h, hm => by
    cases hp : productOfRaw (popId d) with
    | none => simp [validateProducts, hp] at h
    | some p2 =>
      cases hr : validateProducts rest with
      | error e => simp [validateProducts, hp, hr] at h
      | ok ps2 =>
        simp [validateProducts, hp, hr] at h
        subst h
        rcases List.mem_cons.mp hm with he | hm2
        · exact ⟨d, by simp, by rw [hp, he]⟩
        · obtain ⟨d2, hd2, hp2⟩ := validateProducts_ok_mem rest ps2 p hr hm2
          exact ⟨d2, by simp [hd2], hp2⟩

lemma productOfRaw_fields {d : RawDoc} {p : Product} (h : productOfRaw d = some p) :
    reqStr d ("title") = some p.title ∧ numFieldGe0 d ("price") = some p.price ∧
    reqStr d ("category") = some p.category ∧
    boolField d ("featured") false = some p.featured := by
  simp only [productOfRaw, Option.bind_eq_some] at h
  obtain ⟨t, ht, desc, hdesc, pr, hpr, cat, hcat, ins, hins, img, himg, fea, hfea, hp⟩ := h
  have hpe := Option.some.inj hp
  rw [← hpe]
  exact ⟨ht, hpr, hcat, hfea⟩

lemma getVal_of_reqStr {d : RawDoc} {k : String} {s : String}
    (h : reqStr d k = some s) : getVal d k = some (RawVal.str s) := by
  unfold reqStr at h
  cases hg : getVal d k with
  | none => rw [hg] at h; cases h
  | some v => rw [hg] at h; cases v <;> simp_all

lemma boolField_of_getVal {d : RawDoc} {k : String} {b : Bool} (dflt : Bool)
    (h : getVal d k = some (RawVal.bool b)) : boolField d k dflt = some b := by
  simp [boolField, h]

lemma seedWrites_sample (st : StoreState) :
    seedWrites sampleProducts st
      = ⟨st.docs ++ seededEntries st.nextId, st.nextId + 4⟩ := by
  simp only [sampleProducts, seedWrites, create_document, seededEntries,
    List.append_assoc, List.singleton_append]
  try rfl

lemma seed_guard_nonempty (st2 : StoreState) (e : Nat × String × RawDoc)
    (hmem : e ∈ st2.docs) (hcoll : e.2.1 = ("product")) :
    (get_documents ("product") [] 1 st2).isEmpty = false := by
  unfold get_documents
  have hf : e ∈ st2.docs.filter
      (fun x => x.2.1 == ("product") && matchesQuery x.2.2 []) := by
    refine List.mem_filter.mpr ⟨hmem, ?t⟩
    simp [hcoll, matchesQuery]
  have hm : e.2.2 ∈ (st2.docs.filter
      (fun x => x.2.1 == ("product") && matchesQuery x.2.2 [])).map
      (fun x => x.2.2) := List.mem_map_of_mem _ hf
  have hne := List.ne_nil_of_mem hm
  cases hl : (st2.docs.filter
      (fun x => x.2.1 == ("product") && matchesQuery x.2.2 [])).map
      (fun x => x.2.2) with
  | nil => exact absurd hl hne
  | cons a t => simp [hl]

/-- C1: For every structurally valid checkout payload, the subtotal of the
Order constructed and persisted by checkout equals the sum over all cart
items, taken in input order, of price times quantity. -/
theorem checkout_subtotal_eq_sum (p : CheckoutRequest) (st : StoreState)
    (hv : ∀ it ∈ p.items, validCartItem it = true)
    (he : isValidEmail p.email = true) :
    ∃ o : Order, o.subtotal = cartSubtotal p.items ∧
      o.items = p.items.map cartToOrderItem ∧
      checkout p st = Except.ok (⟨true, st.nextId⟩,
        ⟨st.docs ++ [(st.nextId, ("order"),
          (("_id"), RawVal.oid st.nextId) :: Order.toRaw o)],
         st.nextId + 1⟩) :=
  ⟨orderOf p, rfl, rfl, checkout_ok p st hv he⟩

/-- Witness for C1 at a concrete one-item payload and the empty store. -/
theorem checkout_subtotal_eq_sum_witness :
    (∀ it ∈ wPayload.items, validCartItem it = true) ∧
    isValidEmail wPayload.email = true ∧
    (∃ o : Order, o.subtotal = cartSubtotal wPayload.items ∧
      o.items = wPayload.items.map cartToOrderItem ∧
      checkout wPayload emptyStore = Except.ok (⟨true, emptyStore.nextId⟩,
        ⟨emptyStore.docs ++ [(emptyStore.nextId, ("order"),
          (("_id"), RawVal.oid emptyStore.nextId) :: Order.toRaw o)],
         emptyStore.nextId + 1⟩)) :=
  ⟨by decide, by decide,
   checkout_subtotal_eq_sum wPayload emptyStore (by decide) (by decide)⟩

/-- C2: For every structurally valid checkout payload, the persisted Order
has shipping 0, total equal to subtotal and status the literal pending, and
checkout returns the store-assigned identifier as order_id together with a
success flag. -/
theorem checkout_fixed_shipping_total_status (p : CheckoutRequest) (st : StoreState)
    (hv : ∀ it ∈ p.items, validCartItem it = true)
    (he : isValidEmail p.email = true) :
    ∃ o : Order, o.shipping = 0 ∧ o.total = o.subtotal ∧ o.status = ("pending") ∧
      checkout p st = Except.ok
        (⟨true, (create_document ("order") (Order.toRaw o) st).1⟩,
         (create_document ("order") (Order.toRaw o) st).2) :=
  ⟨orderOf p, rfl, rfl, rfl, by rw [checkout_ok p st hv he]; rfl⟩

/-- Witness for C2 at a concrete one-item payload and the empty store. -/
theorem checkout_fixed_shipping_total_status_witness :
    (∀ it ∈ wPayload.items, validCartItem it = true) ∧
    isValidEmail wPayload.email = true ∧
    (∃ o : Order, o.shipping = 0 ∧ o.total = o.subtotal ∧ o.status = ("pending") ∧
      checkout wPayload emptyStore = Except.ok
        (⟨true, (create_document ("order") (Order.toRaw o) emptyStore).1⟩,
         (create_document ("order") (Order.toRaw o) emptyStore).2)) :=
  ⟨by decide, by decide,
   checkout_fixed_shipping_total_status wPayload emptyStore (by decide) (by decide)⟩

/-- C10: A checkout payload with an empty items list is accepted: checkout
constructs and persists an Order with no items, subtotal 0, total 0 and
status pending, and returns success with an order identifier. -/
theorem checkout_empty_items_accepted (p : CheckoutRequest) (st : StoreState)
    (hempty : p.items = []) (he : isValidEmail p.email = true) :
    (orderOf p).items = [] ∧ (orderOf p).subtotal = 0 ∧ (orderOf p).total = 0 ∧
    (orderOf p).status = ("pending") ∧
    checkout p st = Except.ok (⟨true, st.nextId⟩,
      ⟨st.docs ++ [(st.nextId, ("order"),
        (("_id"), RawVal.oid st.nextId) :: Order.toRaw (orderOf p))],
       st.nextId + 1⟩) := by
  have hv : ∀ it ∈ p.items, validCartItem it = true := by
    rw [hempty]
    simp
  refine ⟨?h1, ?h2, ?h3, rfl, checkout_ok p st hv he⟩
  · simp [orderOf, hempty]
  · simp [orderOf, hempty, cartSubtotal]
  · simp [orderOf, hempty, cartSubtotal]

/-- Witness for C10 at a concrete empty-cart payload and the empty store. -/
theorem checkout_empty_items_accepted_witness :
    wEmptyPayload.items = [] ∧ isValidEmail wEmptyPayload.email = true ∧
    ((orderOf wEmptyPayload).items = [] ∧ (orderOf wEmptyPayload).subtotal = 0 ∧
     (orderOf wEmptyPayload).total = 0 ∧ (orderOf wEmptyPayload).status = ("pending") ∧
     checkout wEmptyPayload emptyStore = Except.ok (⟨true, emptyStore.nextId⟩,
       ⟨emptyStore.docs ++ [(emptyStore.nextId, ("order"),
         (("_id"), RawVal.oid emptyStore.nextId) :: Order.toRaw (orderOf wEmptyPayload))],
        emptyStore.nextId + 1⟩)) :=
  ⟨rfl, by decide,
   checkout_empty_items_accepted wEmptyPayload emptyStore rfl (by decide)⟩

/-- C3 counterexample: on the concrete payload whose second cart item has
quantity 0, the checkout loop does fail the request, but only after the first
item has been processed: at the moment of failure the loop has already
constructed one OrderItem and accumulated a nonzero subtotal, so the payload
is not rejected before any computation is performed. -/
theorem checkout_validation_before_loop_cex :
    processItems cexPayload.items [] 0
      = LoopResult.failed itemErrMsg [cartToOrderItem wOkItem]
          ((0:ℚ) + wOkItem.price * (wOkItem.quantity : ℚ)) ∧
    (0:ℚ) + wOkItem.price * (wOkItem.quantity : ℚ) ≠ 0 ∧
    ([cartToOrderItem wOkItem] : List OrderItem) ≠ [] ∧
    checkout cexPayload emptyStore = Except.error (500, itemErrMsg) := by
  refine ⟨rfl, ?h2, ?h3, rfl⟩
  · norm_num [wOkItem]
  · simp

/-- C3 (amended): the price and quantity constraints of a cart item are not
checked when the payload is parsed (CartItem itself is unconstrained) but
inside the checkout loop, when the OrderItem snapshot of that item is
constructed; an invalid item therefore aborts the request at its own loop
iteration, after the OrderItem construction and subtotal accumulation of all
preceding items, and the request fails with a server error before any Order
is persisted. -/
theorem checkout_item_validation_in_loop (pre : List CartItem) (bad : CartItem)
    (rest : List CartItem) (p : CheckoutRequest) (st : StoreState)
    (hpre : ∀ it ∈ pre, validCartItem it = true)
    (hbad : validCartItem bad = false)
    (hitems : p.items = pre ++ bad :: rest) :
    processItems p.items [] 0
      = LoopResult.failed itemErrMsg (pre.map cartToOrderItem) (cartSubtotal pre) ∧
    checkout p st = Except.error (500, itemErrMsg) := by
  have hloop := processItems_prefix_fail pre bad rest [] 0 hpre hbad
  simp only [List.nil_append, zero_add] at hloop
  constructor
  · rw [hitems]
    exact hloop
  · unfold checkout checkoutWith
    rw [hitems]
    simp only [hloop]

/-- Witness for the amended C3 at a concrete payload with one valid item
followed by one invalid item. -/
theorem checkout_item_validation_in_loop_witness :
    (∀ it ∈ [wOkItem], validCartItem it = true) ∧
    validCartItem cexBadItem = false ∧
    (processItems cexPayload.items [] 0
       = LoopResult.failed itemErrMsg ([wOkItem].map cartToOrderItem)
           (cartSubtotal [wOkItem]) ∧
     checkout cexPayload emptyStore = Except.error (500, itemErrMsg)) :=
  ⟨by decide, by decide,
   checkout_item_validation_in_loop [wOkItem] cexBadItem [] cexPayload emptyStore
     (by decide) (by decide) rfl⟩

/-- C4: on any failure checkout persists nothing.  If some cart item is
invalid, the outcome is an error and does not depend on the store-write
behaviour at all (the store is never consulted), and if the single
store write fails, checkout surfaces an error; an error outcome carries no
new store state, so the store is unchanged on any failure. -/
theorem checkout_failure_atomic (p : CheckoutRequest) (st : StoreState) :
    ((∃ it ∈ p.items, validCartItem it = false) →
      ∀ cf cf2 : CreateFn, checkoutWith cf p st = checkoutWith cf2 p st ∧
        ∃ m, checkoutWith cf p st = Except.error (500, m)) ∧
    (∀ (cf : CreateFn) (m : String),
      (∀ d s, cf ("order") d s = Except.error m) →
      ∃ m2, checkoutWith cf p st = Except.error (500, m2)) := by
  constructor
  · intro hinv cf cf2
    obtain ⟨a, s, hf⟩ := processItems_fails_of_invalid p.items [] 0 hinv
    constructor
    · unfold checkoutWith
      simp only [hf]
    · exact ⟨itemErrMsg, by unfold checkoutWith; simp only [hf]⟩
  · intro cf m hcf
    cases hpi : processItems p.items [] 0 with
    | failed msg a s =>
      exact ⟨msg, by unfold checkoutWith; simp only [hpi]⟩
    | done its sub =>
      cases hmo : mkOrder p.customer_name p.email p.address p.city p.country
          its sub 0 sub ("pending") with
      | none =>
        exact ⟨orderErrMsg, by unfold checkoutWith; simp only [hpi, hmo]⟩
      | some o =>
        exact ⟨m, by unfold checkoutWith; simp only [hpi, hmo, hcf]⟩

/-- Witness for C4 at a concrete payload with an invalid item, comparing the
always-succeeding and the always-failing store-write behaviours. -/
theorem checkout_failure_atomic_witness :
    (∃ it ∈ cexPayload.items, validCartItem it = false) ∧
    (checkoutWith okCreate cexPayload emptyStore
       = checkoutWith failCreate cexPayload emptyStore ∧
     ∃ m, checkoutWith okCreate cexPayload emptyStore = Except.error (500, m)) :=
  ⟨by decide,
   (checkout_failure_atomic cexPayload emptyStore).1 (by decide) okCreate failCreate⟩

/-- C9: a checkout payload whose email is not syntactically valid fails with
a generic 500 server error carrying the failure message, and no Order is
persisted: the outcome is an error independent of the store-write behaviour,
so the store is never written. -/
theorem checkout_invalid_email_rejected (p : CheckoutRequest) (st : StoreState)
    (he : isValidEmail p.email = false) :
    (∃ m, checkout p st = Except.error (500, m)) ∧
    ∀ cf cf2 : CreateFn, checkoutWith cf p st = checkoutWith cf2 p st := by
  have hmo : ∀ (its : List OrderItem) (sub : ℚ),
      mkOrder p.customer_name p.email p.address p.city p.country
        its sub 0 sub ("pending") = none := by
    intro its sub
    simp [mkOrder, he]
  constructor
  · cases hpi : processItems p.items [] 0 with
    | failed msg a s =>
      exact ⟨msg, by unfold checkout checkoutWith; simp only [hpi]⟩
    | done its sub =>
      exact ⟨orderErrMsg, by unfold checkout checkoutWith; simp only [hpi, hmo]⟩
  · intro cf cf2
    cases hpi : processItems p.items [] 0 with
    | failed msg a s =>
      unfold checkoutWith
      simp only [hpi]
    | done its sub =>
      unfold checkoutWith
      simp only [hpi, hmo]

/-- Witness for C9 at a concrete payload with an invalid email address. -/
theorem checkout_invalid_email_rejected_witness :
    isValidEmail wBadEmailPayload.email = false ∧
    ((∃ m, checkout wBadEmailPayload emptyStore = Except.error (500, m)) ∧
     ∀ cf cf2 : CreateFn,
       checkoutWith cf wBadEmailPayload emptyStore
         = checkoutWith cf2 wBadEmailPayload emptyStore) :=
  ⟨by decide, checkout_invalid_email_rejected wBadEmailPayload emptyStore (by decide)⟩

/-- C5: seed_products is idempotent: with at least one product in the store
it reports that products already exist and performs zero writes; on an empty
product collection it writes exactly the four fixed demo products in order,
one store write per product; and of two calls in sequence only the first
ever writes. -/
theorem seed_products_idempotent (st : StoreState) :
    ((get_documents ("product") [] 1 st).isEmpty = false →
      seed_products st = (("Products already exist"), st)) ∧
    ((get_documents ("product") [] 1 st).isEmpty = true →
      seed_products st = (("Seeded products"),
        ⟨st.docs ++ seededEntries st.nextId, st.nextId + 4⟩) ∧
      (seededEntries st.nextId).length = 4) ∧
    seed_products ((seed_products st).2) = (("Products already exist"), (seed_products st).2) := by
  refine ⟨?g1, ?g2, ?g3⟩
  · intro h
    simp [seed_products, h]
  · intro h
    refine ⟨?w, by simp [seededEntries]⟩
    simp [seed_products, h, seedWrites_sample]
  · cases h : (get_documents ("product") [] 1 st).isEmpty with
    | false =>
      have h1 : seed_products st = (("Products already exist"), st) := by
        simp [seed_products, h]
      rw [h1]
      simp [seed_products, h]
    | true =>
      have h1 : seed_products st = (("Seeded products"),
          ⟨st.docs ++ seededEntries st.nextId, st.nextId + 4⟩) := by
        simp [seed_products, h, seedWrites_sample]
      rw [h1]
      have hne := seed_guard_nonempty
        (⟨st.docs ++ seededEntries st.nextId, st.nextId + 4⟩ : StoreState)
        (st.nextId, ("product"),
          (("_id"), RawVal.oid st.nextId) :: Product.toRaw chipsProduct)
        (by simp [seededEntries]) rfl
      simp [seed_products, hne]

/-- Witness for C5 at a concrete store already holding one product. -/
theorem seed_products_idempotent_witness :
    (get_documents ("product") [] 1 storeWithSnack).isEmpty = false ∧
    seed_products storeWithSnack = (("Products already exist"), storeWithSnack) :=
  ⟨rfl, (seed_products_idempotent storeWithSnack).1 rfl⟩

/-- C6 counterexample: the category clause is included under Python
truthiness, not explicit presence: with the provided but empty category
string the filter has no category clause at all, and the result of
list_products then contains a record whose category is not the given value. -/
theorem list_products_category_truthiness_cex :
    buildProductQuery (some ("")) none = [] ∧
    list_products (some ("")) none 50 storeWithSnack = Except.ok [snackProduct] ∧
    snackProduct.category ≠ ("") := by
  exact ⟨rfl, rfl, by decide⟩

/-- C6 (amended): the filter includes the category clause exactly when the
category argument is provided and nonempty (truthiness), and the featured
clause exactly when the featured argument is provided, including false; with
a provided nonempty category every returned record has that category, and
with featured false every returned record is non-featured. -/
theorem list_products_filter_amended :
    (∀ (c : String) (f : Option Bool),
      getVal (buildProductQuery (some c) f) ("category")
        = (if c = ("") then none else some (RawVal.str c))) ∧
    (∀ (f : Option Bool), getVal (buildProductQuery none f) ("category") = none) ∧
    (∀ (cat : Option String) (b : Bool),
      getVal (buildProductQuery cat (some b)) ("featured") = some (RawVal.bool b)) ∧
    (∀ (cat : Option String), getVal (buildProductQuery cat none) ("featured") = none) ∧
    (∀ (c : String) (f : Option Bool) (lim : Nat) (st : StoreState) (ps : List Product),
      c ≠ ("") → list_products (some c) f lim st = Except.ok ps →
      ∀ p ∈ ps, p.category = c) ∧
    (∀ (cat : Option String) (lim : Nat) (st : StoreState) (ps : List Product),
      list_products cat (some false) lim st = Except.ok ps →
      ∀ p ∈ ps, p.featured = false) := by
  refine ⟨?g1, ?g2, ?g3, ?g4, ?g5, ?g6⟩
  · intro c f
    by_cases hc : c = ("")
    · subst hc
      cases f <;> simp [buildProductQuery, getVal]
    · have hb : (c == ("")) = false := beq_eq_false_iff_ne.mpr hc
      cases f <;> simp [buildProductQuery, getVal, hb, hc]
  · intro f
    cases f <;> simp [buildProductQuery, getVal]
  · intro cat b
    cases cat with
    | none => rfl
    | some c =>
      by_cases hc : (c == ("")) = true <;> simp [buildProductQuery, getVal, hc]
  · intro cat
    cases cat with
    | none => rfl
    | some c =>
      by_cases hc : (c == ("")) = true <;> simp [buildProductQuery, getVal, hc]
  · intro c f lim st ps hc hok p hp
    obtain ⟨d, hd, hpd⟩ := validateProducts_ok_mem _ ps p hok hp
    have hmq := matches_of_mem_get_documents hd
    obtain ⟨v, hv, hbeq⟩ := matchesQuery_mem hmq (category_mem_query hc f)
    rw [beq_str_eq hbeq] at hv
    have hcats := getVal_of_reqStr (productOfRaw_fields hpd).2.2.1
    rw [getVal_popId d ("category") (by decide)] at hcats
    rw [hcats] at hv
    have := Option.some.inj hv
    simp only [RawVal.str.injEq] at this
    exact this
  · intro cat lim st ps hok p hp
    obtain ⟨d, hd, hpd⟩ := validateProducts_ok_mem _ ps p hok hp
    have hmq := matches_of_mem_get_documents hd
    obtain ⟨v, hv, hbeq⟩ := matchesQuery_mem hmq (featured_mem_query cat false)
    rw [beq_bool_eq hbeq] at hv
    have hg : getVal (popId d) ("featured") = some (RawVal.bool false) := by
      rw [getVal_popId d ("featured") (by decide)]
      exact hv
    have hbf := boolField_of_getVal false hg
    have hfea := (productOfRaw_fields hpd).2.2.2
    rw [hbf] at hfea
    have := Option.some.inj hfea
    exact this.symm

/-- Witness for the amended C6 at a concrete store with one snacks record. -/
theorem list_products_filter_amended_witness :
    ((("snacks") : String) ≠ ("")) ∧
    list_products (some ("snacks")) none 50 storeWithSnack = Except.ok [snackProduct] ∧
    snackProduct.category = ("snacks") :=
  ⟨by decide, rfl,
   list_products_filter_amended.2.2.2.2.1 ("snacks") none 50 storeWithSnack
     [snackProduct] (by decide) rfl snackProduct (List.mem_singleton.mpr rfl)⟩

/-- C7: list_products validates exactly the records the store returns, each
with its store-assigned identifier removed first: if every record validates
the whole validated sequence is returned, and if any single record fails
Product validation the whole request aborts with a 500 server error. -/
theorem list_products_strict_validation (docs : List RawDoc) :
    ((∀ d ∈ docs, (productOfRaw (popId d)).isSome = true) →
      validateProducts docs = Except.ok (docs.filterMap fun d => productOfRaw (popId d))) ∧
    ((∃ d ∈ docs, productOfRaw (popId d) = none) →
      validateProducts docs = Except.error (500, prodErrMsg)) ∧
    (∀ (cat : Option String) (f : Option Bool) (lim : Nat) (st : StoreState),
      list_products cat f lim st
        = validateProducts (get_documents ("product") (buildProductQuery cat f) lim st)) := by
  refine ⟨validateProducts_ok_all docs, ?g2, fun _ _ _ _ => rfl⟩
  intro h
  obtain ⟨d, hd, hn⟩ := h
  exact validateProducts_error_of_mem docs d hd hn

/-- Witness for C7 at a concrete record list containing one invalid record. -/
theorem list_products_strict_validation_witness :
    (∃ d ∈ [snackDoc, badDoc], productOfRaw (popId d) = none) ∧
    validateProducts [snackDoc, badDoc] = Except.error (500, prodErrMsg) :=
  ⟨by decide, (list_products_strict_validation [snackDoc, badDoc]).2.1 (by decide)⟩

/-- C8: the limit is a hard cap: for every limit value and store state, a
successful list_products call returns at most limit records. -/
theorem list_products_limit_cap (cat : Option String) (f : Option Bool) (lim : Nat)
    (st : StoreState) (ps : List Product)
    (h : list_products cat f lim st = Except.ok ps) : ps.length ≤ lim := by
  have h2 := validateProducts_ok_length
    (get_documents ("product") (buildProductQuery cat f) lim st) ps h
  rw [h2]
  exact length_get_documents _ _ _ _

/-- Witness for C8: a store with three product records and limit 2 yields
exactly two records. -/
theorem list_products_limit_cap_witness :
    ([snackProduct, snackProduct] : List Product).length ≤ 2 :=
  list_products_limit_cap none none 2 storeWithThree [snackProduct, snackProduct] rfl

end FoodBrand
